import Mathlib

/-!
Shallow embedding of the live-player streaming system (crates
game-stream-common, game-stream-client, game-stream-server) and proofs
about its specification claims.

Conventions of the embedding:
- Rust byte buffers (`Bytes`, `Vec<u8>`) are `List Nat`.
- `Uuid` values are `Nat` identifiers; `chrono` instants are `Int` seconds.
- `u32`/`u64`/`usize` counters are `Nat` (no operation in the modelled
  code can overflow them in any feasible execution).
- Stateful methods take the receiver and return the updated receiver;
  fallible methods return `Except StreamError`.
- A tokio mpsc unbounded channel is a buffer plus a flag recording whether
  the receiving half is still alive; `send` on the sending half succeeds
  exactly when the receiver is alive (tokio semantics).
- `HashMap`/`HashSet` are association lists / lists with unique keys.
-/

/-- game-stream-common/src/protocol.rs: enum VideoCodec. -/
inductive VideoCodec where
  | h264
  | h265
  | vp8
  | vp9
  | av1
deriving DecidableEq

/-- game-stream-common/src/protocol.rs: enum AudioCodec. -/
inductive AudioCodec where
  | aac
  | opus
  | mp3
  | pcm
deriving DecidableEq

/-- game-stream-common/src/protocol.rs: struct VideoConfig. -/
structure VideoConfig where
  width : Nat
  height : Nat
  fps : Nat
  bitrate : Nat
  codec : VideoCodec
deriving DecidableEq

/-- game-stream-common/src/protocol.rs: struct AudioConfig. -/
structure AudioConfig where
  sample_rate : Nat
  channels : Nat
  bitrate : Nat
  codec : AudioCodec
deriving DecidableEq

/-- game-stream-common/src/protocol.rs: enum ViewProtocol. -/
inductive ViewProtocol where
  | rtmp
  | hls
  | dash
  | webRtc
deriving DecidableEq

/-- game-stream-common/src/protocol.rs: enum StreamStatus. -/
inductive StreamStatus where
  | starting
  | live
  | stopping
  | stopped
  | error (reason : String)
deriving DecidableEq

/-- game-stream-common/src/error.rs: enum StreamError (payloads as strings). -/
inductive StreamError where
  | io (msg : String)
  | serialization (msg : String)
  | rtmp (msg : String)
  | webRtc (msg : String)
  | codec (msg : String)
  | capture (msg : String)
  | config (msg : String)
  | network (msg : String)
  | auth (msg : String)
  | streamNotFound (msg : String)
  | invalidStreamKey (msg : String)
  | connectionClosed
  | timeout
  | internal (msg : String)
deriving DecidableEq

deriving instance DecidableEq for Except

/-- game-stream-common/src/stream.rs: enum MediaPacket. -/
inductive MediaPacket where
  | video (data : List Nat) (timestamp : Nat) (is_keyframe : Bool)
  | audio (data : List Nat) (timestamp : Nat)
  | metadata (data : List Nat)
deriving DecidableEq

/-- game-stream-common/src/protocol.rs: struct StreamInfo. -/
structure StreamInfo where
  stream_id : Nat
  stream_key : String
  title : Option String
  description : Option String
  created_at : Int
  is_live : Bool
  viewer_count : Nat
  video_config : VideoConfig
  audio_config : AudioConfig
deriving DecidableEq

/-- game-stream-common/src/protocol.rs: struct ViewerConnection. -/
structure ViewerConnection where
  id : Nat
  remote_addr : String
  connected_at : Int
  protocol : ViewProtocol
  stream_key : String
deriving DecidableEq

/-- A tokio mpsc unbounded channel, seen from the sending side: the queued
messages plus whether the receiving half is still alive.  `send` succeeds
exactly when the receiver is alive. -/
structure Channel (α : Type) where
  buffer : List α
  receiver_alive : Bool
deriving DecidableEq

/-- Association-list insert with HashMap semantics: replace the value when
the key is present, append otherwise. -/
def MapList.insert {κ α : Type} [DecidableEq κ] (k : κ) (a : α)
    (m : List (κ × α)) : List (κ × α) :=
  if m.any (fun p => decide (p.1 = k)) then
    m.map (fun p => if p.1 = k then (k, a) else p)
  else
    m ++ [(k, a)]

/-- Association-list removal of one key (HashMap::remove). -/
def MapList.erase {κ α : Type} [DecidableEq κ] (k : κ)
    (m : List (κ × α)) : List (κ × α) :=
  m.filter (fun p => decide (p.1 ≠ k))

/-- Association-list lookup (HashMap::get). -/
def MapList.get {κ α : Type} [DecidableEq κ] (k : κ)
    (m : List (κ × α)) : Option α :=
  (m.find? (fun p => decide (p.1 = k))).map Prod.snd

/-- game-stream-common/src/stream.rs: struct LiveStream.  The
`media_sender`/dropped-receiver pair is modelled by `media_channel`. -/
structure LiveStream where
  stream_key : String
  info : StreamInfo
  status : StreamStatus
  viewers : List (Nat × ViewerConnection)
  media_channel : Channel MediaPacket
deriving DecidableEq

/-- LiveStream::new: `let (media_sender, _) = mpsc::unbounded_channel();`
binds the receiver to `_`, dropping it at once, so the channel starts with
a dead receiving half. -/
def LiveStream.new (stream_key : String) (info : StreamInfo) : LiveStream :=
  { stream_key := stream_key
    info := info
    status := StreamStatus.starting
    viewers := []
    media_channel := { buffer := [], receiver_alive := false } }

/-- LiveStream::send_media_packet: forwards to `media_sender.send`, mapping
a send failure to `Internal("Failed to send media packet")`. -/
def LiveStream.send_media_packet (s : LiveStream) (packet : MediaPacket) :
    Except StreamError Unit × LiveStream :=
  if s.media_channel.receiver_alive then
    (Except.ok (),
     { s with media_channel :=
        { s.media_channel with buffer := s.media_channel.buffer ++ [packet] } })
  else
    (Except.error (StreamError.internal "Failed to send media packet"), s)

/-- LiveStream::add_viewer: insert the viewer keyed by its id, then set
`info.viewer_count` to the size of the viewer map.  (The per-viewer media
receiver the source returns is a fresh channel whose sender is dropped; it
carries no information and is omitted here.) -/
def LiveStream.add_viewer (s : LiveStream) (viewer : ViewerConnection) :
    LiveStream :=
  let viewers := MapList.insert viewer.id viewer s.viewers
  { s with
    viewers := viewers
    info := { s.info with viewer_count := viewers.length } }

/-- LiveStream::remove_viewer: remove the id, then set `info.viewer_count`
to the size of the viewer map. -/
def LiveStream.remove_viewer (s : LiveStream) (viewer_id : Nat) : LiveStream :=
  let viewers := MapList.erase viewer_id s.viewers
  { s with
    viewers := viewers
    info := { s.info with viewer_count := viewers.length } }

/-- LiveStream::set_status, including the `is_live` maintenance. -/
def LiveStream.set_status (s : LiveStream) (status : StreamStatus) : LiveStream :=
  let s := { s with status := status }
  match status with
  | StreamStatus.live => { s with info := { s.info with is_live := true } }
  | StreamStatus.stopped => { s with info := { s.info with is_live := false } }
  | StreamStatus.error _ => { s with info := { s.info with is_live := false } }
  | _ => s

/-- LiveStream::get_viewer_count. -/
def LiveStream.get_viewer_count (s : LiveStream) : Nat :=
  s.viewers.length

/-- One viewer-churn operation on a LiveStream, as driven by the callers of
add_viewer / remove_viewer. -/
inductive ViewerOp where
  | add (viewer : ViewerConnection)
  | remove (viewer_id : Nat)
deriving DecidableEq

/-- Apply one viewer operation. -/
def LiveStream.applyViewerOp (s : LiveStream) : ViewerOp → LiveStream
  | ViewerOp.add v => s.add_viewer v
  | ViewerOp.remove id => s.remove_viewer id

/-- Apply a sequence of viewer operations, oldest first. -/
def LiveStream.applyViewerOps (s : LiveStream) (ops : List ViewerOp) : LiveStream :=
  ops.foldl LiveStream.applyViewerOp s

/-- game-stream-common/src/stream.rs: struct MediaBuffer. -/
structure MediaBuffer where
  video_keyframe : Option MediaPacket
  audio_config : Option MediaPacket
  metadata : Option MediaPacket
deriving DecidableEq

/-- MediaBuffer::new. -/
def MediaBuffer.new : MediaBuffer :=
  { video_keyframe := none, audio_config := none, metadata := none }

/-- MediaBuffer::add_packet: a video packet replaces the cached keyframe
only when flagged as a keyframe; an audio packet is not cached (the source
body for that arm is only a comment); a metadata packet replaces the cached
metadata. -/
def MediaBuffer.add_packet (b : MediaBuffer) (packet : MediaPacket) : MediaBuffer :=
  match packet with
  | MediaPacket.video _ _ kf =>
      if kf then { b with video_keyframe := some packet } else b
  | MediaPacket.audio _ _ => b
  | MediaPacket.metadata _ => { b with metadata := some packet }

/-- MediaBuffer::get_init_packets: cached metadata, then cached audio
config, then cached keyframe, skipping absent entries. -/
def MediaBuffer.get_init_packets (b : MediaBuffer) : List MediaPacket :=
  b.metadata.toList ++ b.audio_config.toList ++ b.video_keyframe.toList

/-- game-stream-common/src/config.rs: struct AuthConfig. -/
structure AuthConfig where
  enabled : Bool
  valid_stream_keys : List String
deriving DecidableEq

/-- game-stream-server/src/auth.rs: struct AuthManager. -/
structure AuthManager where
  config : AuthConfig
  valid_stream_keys : List String
deriving DecidableEq

/-- AuthManager::new: the key set is collected from the configured list. -/
def AuthManager.new (config : AuthConfig) : AuthManager :=
  { config := config, valid_stream_keys := config.valid_stream_keys }

/-- AuthManager::validate_stream_key: always true when auth is disabled,
set membership otherwise. -/
def AuthManager.validate_stream_key (m : AuthManager) (stream_key : String) : Bool :=
  if !m.config.enabled then
    true
  else
    decide (stream_key ∈ m.valid_stream_keys)

/-- AuthManager::add_stream_key (HashSet::insert). -/
def AuthManager.add_stream_key (m : AuthManager) (stream_key : String) : AuthManager :=
  if stream_key ∈ m.valid_stream_keys then m
  else { m with valid_stream_keys := m.valid_stream_keys ++ [stream_key] }

/-- AuthManager::remove_stream_key (HashSet::remove). -/
def AuthManager.remove_stream_key (m : AuthManager) (stream_key : String) : AuthManager :=
  { m with valid_stream_keys :=
      m.valid_stream_keys.filter (fun k => decide (k ≠ stream_key)) }

/-- game-stream-common/src/config.rs: struct StorageConfig. -/
structure StorageConfig where
  hls_segment_dir : String
  hls_segment_duration : Nat
  hls_playlist_length : Nat
  dash_segment_dir : String
  dash_segment_duration : Nat
deriving DecidableEq

/-- game-stream-server/src/hls.rs: struct HlsSegment. -/
structure HlsSegment where
  name : String
  duration : Nat
  sequence : Nat
deriving DecidableEq

/-- game-stream-server/src/hls.rs: struct HlsPlaylist.  The
`last_segment_time` instant is an `Option Int`. -/
structure HlsPlaylist where
  stream_key : String
  segments : List HlsSegment
  next_segment_number : Nat
  target_duration : Nat
  max_segments : Nat
  last_segment_time : Option Int
deriving DecidableEq

/-- HlsPlaylist::new. -/
def HlsPlaylist.new (stream_key : String) (config : StorageConfig) : HlsPlaylist :=
  { stream_key := stream_key
    segments := []
    next_segment_number := 0
    target_duration := config.hls_segment_duration
    max_segments := config.hls_playlist_length
    last_segment_time := none }

/-- The `while self.segments.len() > self.max_segments { self.segments.remove(0) }`
loop of HlsPlaylist::add_segment: repeatedly drop the front element while
the list is longer than the bound. -/
def trimFront (maxSegments : Nat) : List HlsSegment → List HlsSegment
  | [] => []
  | s :: rest =>
      if (s :: rest).length > maxSegments then trimFront maxSegments rest
      else s :: rest

/-- HlsPlaylist::add_segment: append a segment carrying the next sequence
number, bump the counter, record the boundary instant `now`, then trim the
window from the front. -/
def HlsPlaylist.add_segment (p : HlsPlaylist) (segment_name : String)
    (duration : Nat) (now : Int) : HlsPlaylist :=
  let segment : HlsSegment :=
    { name := segment_name, duration := duration, sequence := p.next_segment_number }
  { p with
    segments := trimFront p.max_segments (p.segments ++ [segment])
    next_segment_number := p.next_segment_number + 1
    last_segment_time := some now }

/-- One add_segment call with its arguments, for reasoning about operation
sequences. -/
structure SegmentAdd where
  segment_name : String
  duration : Nat
  now : Int
deriving DecidableEq

/-- Apply a sequence of add_segment calls, oldest first. -/
def HlsPlaylist.applyAdds (p : HlsPlaylist) (ops : List SegmentAdd) : HlsPlaylist :=
  ops.foldl (fun q op => q.add_segment op.segment_name op.duration op.now) p

/-- HlsPlaylist::generate_m3u8: header lines, the media-sequence line when
at least one segment exists, then one EXTINF line plus one name line per
segment, in order. -/
def HlsPlaylist.generate_m3u8 (p : HlsPlaylist) : String :=
  "#EXTM3U\n" ++ "#EXT-X-VERSION:3\n"
    ++ "#EXT-X-TARGETDURATION:" ++ toString p.target_duration ++ "\n"
    ++ (match p.segments.head? with
        | some first => "#EXT-X-MEDIA-SEQUENCE:" ++ toString first.sequence ++ "\n"
        | none => "")
    ++ String.join (p.segments.map
        (fun s => "#EXTINF:" ++ toString s.duration ++ ".0,\n" ++ s.name ++ "\n"))

/-- The playlist text format as the spec words it (bit-exact contract):
header lines, `EXT-X-MEDIA-SEQUENCE` with the first sequence number only
when a segment exists, then per segment an `EXTINF:<duration>.0,` line and
the filename line.  Written from the spec, to be compared with
`HlsPlaylist.generate_m3u8`. -/
def m3u8SpecText (target_duration : Nat) (segments : List HlsSegment) : String :=
  let header := "#EXTM3U\n" ++ "#EXT-X-VERSION:3\n"
    ++ "#EXT-X-TARGETDURATION:" ++ toString target_duration ++ "\n"
  let mediaSeq :=
    match segments with
    | [] => ""
    | first :: _ => "#EXT-X-MEDIA-SEQUENCE:" ++ toString first.sequence ++ "\n"
  let body := segments.foldr
    (fun s acc => "#EXTINF:" ++ toString s.duration ++ ".0,\n" ++ s.name ++ "\n" ++ acc) ""
  header ++ mediaSeq ++ body

/-- game-stream-common/src/config.rs: struct NetworkConfig. -/
structure NetworkConfig where
  connection_timeout : Nat
  read_timeout : Nat
  write_timeout : Nat
  buffer_size : Nat
deriving DecidableEq

/-- game-stream-client/src/pusher.rs: struct RtmpPusher. -/
structure RtmpPusher where
  server_url : String
  stream_key : String
  app_name : String
  network_config : NetworkConfig
  connected : Bool
deriving DecidableEq

/-- game-stream-client/src/pusher.rs: struct SrtPusher. -/
structure SrtPusher where
  server_url : String
  stream_key : String
  network_config : NetworkConfig
  connected : Bool
deriving DecidableEq

/-- RtmpPusher::push_packet: while not connected, fail with
`Network("Not connected to server")` before touching anything; once
connected, the per-kind send bodies are placeholder logging only. -/
def RtmpPusher.push_packet (p : RtmpPusher) (packet : MediaPacket) :
    Except StreamError Unit × RtmpPusher :=
  if !p.connected then
    (Except.error (StreamError.network "Not connected to server"), p)
  else
    match packet with
    | MediaPacket.video _ _ _ => (Except.ok (), p)
    | MediaPacket.audio _ _ => (Except.ok (), p)
    | MediaPacket.metadata _ => (Except.ok (), p)

/-- SrtPusher::push_packet: same disconnected check, placeholder body. -/
def SrtPusher.push_packet (p : SrtPusher) (_packet : MediaPacket) :
    Except StreamError Unit × SrtPusher :=
  if !p.connected then
    (Except.error (StreamError.network "Not connected to server"), p)
  else
    (Except.ok (), p)

/-- game-stream-client/src/pusher.rs: enum StreamPusherEnum. -/
inductive StreamPusherEnum where
  | rtmp (pusher : RtmpPusher)
  | srt (pusher : SrtPusher)
deriving DecidableEq

/-- The `connected` field of whichever variant is active. -/
def StreamPusherEnum.connected : StreamPusherEnum → Bool
  | StreamPusherEnum.rtmp p => p.connected
  | StreamPusherEnum.srt p => p.connected

/-- StreamPusherEnum::push_packet: dispatch to the active variant. -/
def StreamPusherEnum.push_packet (e : StreamPusherEnum) (packet : MediaPacket) :
    Except StreamError Unit × StreamPusherEnum :=
  match e with
  | StreamPusherEnum.rtmp p =>
      let r := p.push_packet packet
      (r.1, StreamPusherEnum.rtmp r.2)
  | StreamPusherEnum.srt p =>
      let r := p.push_packet packet
      (r.1, StreamPusherEnum.srt r.2)

/-- game-stream-common/src/config.rs: struct StreamConfig (the fields the
client orchestrator reads). -/
structure StreamConfig where
  auto_reconnect : Bool
  reconnect_interval : Nat
  max_reconnect_attempts : Nat
deriving DecidableEq

/-- The outcome of one streaming-pipeline attempt, as the environment
determines it: whether the two in-loop constructions succeed (their
`anyhow` errors as strings) and what the three spawned stage bodies would
return.  `run_streaming_loop` consumes this. -/
structure PipelineBehavior where
  encoder_new : Except String Unit
  pusher_new : Except String Unit
  capture_result : Except StreamError Unit
  encode_result : Except StreamError Unit
  push_result : Except StreamError Unit

/-- game-stream-client/src/client.rs: StreamingClient::run_streaming_loop.
The two `EncoderManager::new` / `PusherManager::new` failures are mapped to
`Internal` errors and returned with `?`.  The three stage tasks are spawned
with closures of shape `if let Err(e) = ... { error!(...) }`, so each task
logs its stage error and completes with `()`; `tokio::select!` then matches
the join result of whichever task finished first, logs, and falls through —
the function ends with `Ok(())` regardless of `capture_result`,
`encode_result` or `push_result`. -/
def run_streaming_loop (b : PipelineBehavior) : Except StreamError Unit :=
  match b.encoder_new with
  | Except.error e =>
      Except.error (StreamError.internal ("Failed to create encoder: " ++ e))
  | Except.ok _ =>
    match b.pusher_new with
    | Except.error e =>
        Except.error (StreamError.internal ("Failed to create pusher: " ++ e))
    | Except.ok _ => Except.ok ()

/-- The retry loop of StreamingClient::start, counting reconnect sleeps.
`remaining` is `max_reconnect_attempts - reconnect_attempts`: the source
increments `reconnect_attempts` on an attempt failure and returns the error
when it exceeds `max_reconnect_attempts`, otherwise sleeps
`reconnect_interval` seconds and retries.  `iter` numbers the attempts so
that each one can behave differently. -/
def clientStartGo (auto_reconnect : Bool) (attempt : Nat → Except StreamError Unit) :
    Nat → Nat → Nat → Except StreamError Unit × Nat
  | remaining, iter, sleeps =>
    match attempt iter with
    | Except.ok _ => (Except.ok (), sleeps)
    | Except.error e =>
      if !auto_reconnect then (Except.error e, sleeps)
      else
        match remaining with
        | 0 => (Except.error e, sleeps)
        | r + 1 => clientStartGo auto_reconnect attempt r (iter + 1) (sleeps + 1)

/-- game-stream-client/src/client.rs: StreamingClient::start, with the
attempt behaviors supplied per iteration.  Returns the result together with
the number of reconnect sleeps performed. -/
def clientStart (cfg : StreamConfig) (behavior : Nat → PipelineBehavior) :
    Except StreamError Unit × Nat :=
  clientStartGo cfg.auto_reconnect (fun i => run_streaming_loop (behavior i))
    cfg.max_reconnect_attempts 0 0

/-- A pipeline whose constructions succeed and whose pushing stage always
fails on push: in pusher.rs, when every `push_packet` and every `reconnect`
fail, `start_pushing` returns the push error, which is the pushing task
body failing. -/
def alwaysFailingPushBehavior : Nat → PipelineBehavior := fun _ =>
  { encoder_new := Except.ok ()
    pusher_new := Except.ok ()
    capture_result := Except.ok ()
    encode_result := Except.ok ()
    push_result := Except.error (StreamError.network "Not connected to server") }

/-- A pipeline whose pusher construction fails on every attempt (for
example `StreamProtocol::Custom`, which `create_pusher` rejects). -/
def failingPusherNewBehavior : Nat → PipelineBehavior := fun _ =>
  { encoder_new := Except.ok ()
    pusher_new := Except.error "Custom protocol not implemented yet"
    capture_result := Except.ok ()
    encode_result := Except.ok ()
    push_result := Except.ok () }

/-- game-stream-common/src/stream.rs: struct StreamManager (the key to
stream registry). -/
structure StreamManager where
  streams : List (String × LiveStream)
deriving DecidableEq

/-- StreamManager::create_stream: build a fresh LiveStream and insert it
under the key (last writer wins), returning the handle. -/
def StreamManager.create_stream (m : StreamManager) (stream_key : String)
    (info : StreamInfo) : StreamManager × LiveStream :=
  let stream := LiveStream.new stream_key info
  ({ streams := MapList.insert stream_key stream m.streams }, stream)

/-- StreamManager::get_stream. -/
def StreamManager.get_stream (m : StreamManager) (stream_key : String) :
    Option LiveStream :=
  MapList.get stream_key m.streams

/-- StreamManager::remove_stream. -/
def StreamManager.remove_stream (m : StreamManager) (stream_key : String) :
    StreamManager :=
  { streams := MapList.erase stream_key m.streams }

/-- Replace the stream stored under a key (the effect, through the shared
`Arc`, of mutating a handle obtained from the registry). -/
def StreamManager.update_stream (m : StreamManager) (stream_key : String)
    (stream : LiveStream) : StreamManager :=
  { streams := MapList.insert stream_key stream m.streams }

/-- game-stream-server/src/rtmp.rs: enum RtmpMessage. -/
inductive RtmpMessage where
  | connect (app_name : String)
  | publish (stream_key : String)
  | videoData (data : List Nat) (timestamp : Nat)
  | audioData (data : List Nat) (timestamp : Nat)
  | disconnect
deriving DecidableEq

/-- RtmpConnection::is_keyframe: the deterministic placeholder heuristic
`data.len() > 1000`. -/
def rtmpIsKeyframe (data : List Nat) : Bool :=
  data.length > 1000

/-- The StreamInfo that RtmpConnection::process_messages builds on a
Publish message.  `Uuid::new_v4()` and `Utc::now()` are opaque fresh values
never inspected by any claim; they are modelled as 0. -/
def publishStreamInfo (stream_key : String) : StreamInfo :=
  { stream_id := 0
    stream_key := stream_key
    title := none
    description := none
    created_at := 0
    is_live := false
    viewer_count := 0
    video_config :=
      { width := 1920, height := 1080, fps := 30, bitrate := 2500
        codec := VideoCodec.h264 }
    audio_config :=
      { sample_rate := 44100, channels := 2, bitrate := 128
        codec := AudioCodec.aac } }

/-- Result of a run of RtmpConnection::process_messages: the returned
`StreamResult<()>`, the final value of the local `stream_key`, and the
final registry. -/
structure ProcessRun where
  result : Except StreamError Unit
  stream_key : Option String
  registry : StreamManager

/-- The cleanup block after the message loop of process_messages: when a
stream key was published, set that registry entry to Stopped (through the
shared handle) and remove it. -/
def processCleanup (stream_key : Option String) (reg : StreamManager) :
    StreamManager :=
  match stream_key with
  | none => reg
  | some key =>
    match reg.get_stream key with
    | some stream =>
        (reg.update_stream key (stream.set_status StreamStatus.stopped)).remove_stream key
    | none => reg.remove_stream key

/-- The message loop of RtmpConnection::process_messages over the sequence
of `read_rtmp_message` results.  Each list element is one read result; an
exhausted list stands for the read stream ending in an error, which the
source handles by the same `break` path as a read failure.  `break` paths
(Disconnect, read error) fall through to the cleanup block; `?` paths (auth
failure on Publish, a failing media forward) return the error at once,
skipping cleanup. -/
def processMessagesGo (auth : AuthManager) :
    List (Except StreamError RtmpMessage) → Option String → Option LiveStream →
    StreamManager → ProcessRun
  | [], stream_key, _, reg =>
      { result := Except.ok (), stream_key := stream_key
        registry := processCleanup stream_key reg }
  | Except.error _ :: _, stream_key, _, reg =>
      { result := Except.ok (), stream_key := stream_key
        registry := processCleanup stream_key reg }
  | Except.ok msg :: rest, stream_key, live_stream, reg =>
    match msg with
    | RtmpMessage.connect _ =>
        processMessagesGo auth rest stream_key live_stream reg
    | RtmpMessage.publish key =>
        if !auth.validate_stream_key key then
          { result := Except.error (StreamError.auth ("Invalid stream key: " ++ key))
            stream_key := stream_key
            registry := reg }
        else
          let created := reg.create_stream key (publishStreamInfo key)
          let stream := created.2.set_status StreamStatus.live
          let reg := created.1.update_stream key stream
          processMessagesGo auth rest (some key) (some stream) reg
    | RtmpMessage.videoData data timestamp =>
      match live_stream with
      | some stream =>
          let packet := MediaPacket.video data timestamp (rtmpIsKeyframe data)
          let sent := stream.send_media_packet packet
          (match sent.1 with
           | Except.error e =>
               { result := Except.error e, stream_key := stream_key, registry := reg }
           | Except.ok _ =>
               processMessagesGo auth rest stream_key (some sent.2) reg)
      | none => processMessagesGo auth rest stream_key live_stream reg
    | RtmpMessage.audioData data timestamp =>
      match live_stream with
      | some stream =>
          let packet := MediaPacket.audio data timestamp
          let sent := stream.send_media_packet packet
          (match sent.1 with
           | Except.error e =>
               { result := Except.error e, stream_key := stream_key, registry := reg }
           | Except.ok _ =>
               processMessagesGo auth rest stream_key (some sent.2) reg)
      | none => processMessagesGo auth rest stream_key live_stream reg
    | RtmpMessage.disconnect =>
        { result := Except.ok (), stream_key := stream_key
          registry := processCleanup stream_key reg }

/-- RtmpConnection::process_messages: run the loop from the initial local
state `stream_key = None`, `live_stream = None`. -/
def process_messages (auth : AuthManager)
    (reads : List (Except StreamError RtmpMessage)) (reg : StreamManager) :
    ProcessRun :=
  processMessagesGo auth reads none none reg

/-- game-stream-server/src/webrtc.rs: struct WebRtcPeerConnection (state
fields; instants are `Int` seconds). -/
structure WebRtcPeerConnection where
  id : Nat
  stream_key : String
  created_at : Int
  last_activity : Int
deriving DecidableEq

/-- WebRtcPeerConnection::is_expired: more than five whole minutes since
the last activity.  `chrono::Duration::num_minutes` is the signed duration
in seconds divided by 60 truncating toward zero, as is `Int.div`. -/
def WebRtcPeerConnection.is_expired (c : WebRtcPeerConnection) (now : Int) : Bool :=
  Int.tdiv (now - c.last_activity) 60 > 5

/-- One sweep of WebRtcServer::cleanup_connections (the body the reaper
runs every 30 seconds): collect the ids of expired connections, then remove
each collected id from the map. -/
def cleanup_connections_sweep (now : Int)
    (conns : List (Nat × WebRtcPeerConnection)) :
    List (Nat × WebRtcPeerConnection) :=
  let to_remove := (conns.filter (fun p => p.2.is_expired now)).map Prod.fst
  conns.filter (fun p => !decide (p.1 ∈ to_remove))

/-! Helper lemmas (shared; none of them is a claim theorem). -/

/-- Dropping from the start of an arithmetic range shifts its start. -/
theorem range'_drop (j : Nat) : ∀ (s k : Nat),
    (List.range' s k).drop j = List.range' (s + j) (k - j) := by
  induction j with
  | zero => intro s k; simp
  | succ j ih =>
    intro s k
    cases k with
    | zero => simp
    | succ k =>
      rw [List.range'_succ, List.drop_succ_cons, ih (s + 1) k]
      have h1 : s + 1 + j = s + (j + 1) := by omega
      have h2 : k - j = k + 1 - (j + 1) := by omega
      rw [h1, h2]

/-- The trimming loop of add_segment drops exactly the excess front. -/
theorem trimFront_eq_drop (m : Nat) : ∀ (l : List HlsSegment),
    trimFront m l = l.drop (l.length - m) := by
  intro l
  induction l with
  | nil => simp [trimFront]
  | cons s rest ih =>
    by_cases h : (s :: rest).length > m
    · have hm : m ≤ rest.length := by simpa using Nat.lt_succ_iff.mp h
      have hlen : (s :: rest).length - m = (rest.length - m) + 1 := by
        simp only [List.length_cons]; omega
      rw [trimFront, if_pos h, ih, hlen, List.drop_succ_cons]
    · have hlen : (s :: rest).length - m = 0 := by
        simp only [List.length_cons] at h ⊢; omega
      rw [trimFront, if_neg h, hlen, List.drop_zero]

/-- String.join splits over cons. -/
theorem stringJoin_cons (s : String) (l : List String) :
    String.join (s :: l) = s ++ String.join l := by
  simp only [String.join_eq, List.map_cons, List.flatten_cons]
  rfl

/-- String.join of a singleton-producing map, as a foldr. -/
theorem stringJoin_map_eq_foldr {α : Type} (f : α → String) : ∀ (l : List α),
    String.join (l.map f) = l.foldr (fun x acc => f x ++ acc) "" := by
  intro l
  induction l with
  | nil => rfl
  | cons x l ih =>
    rw [List.map_cons, List.foldr_cons, ← ih, stringJoin_cons]

/-- The spec-side EXTINF foldr is the join of the per-segment lines. -/
theorem extinfFoldr_eq_join : ∀ (l : List HlsSegment),
    l.foldr
      (fun s acc => "#EXTINF:" ++ toString s.duration ++ ".0,\n" ++ s.name ++ "\n" ++ acc)
      "" =
    String.join (l.map
      (fun s => "#EXTINF:" ++ toString s.duration ++ ".0,\n" ++ s.name ++ "\n")) := by
  intro l
  induction l with
  | nil => rfl
  | cons s l ih =>
    rw [List.foldr_cons, List.map_cons, stringJoin_cons, ih]

/-- Lookup of an erased key fails. -/
theorem mapGet_erase_self {κ α : Type} [DecidableEq κ] (k : κ) (m : List (κ × α)) :
    MapList.get k (MapList.erase k m) = none := by
  have h : (MapList.erase k m).find? (fun p => decide (p.1 = k)) = none := by
    rw [List.find?_eq_none]
    intro p hp
    have := (List.mem_filter.mp hp).2
    simp only [decide_eq_true_eq] at this ⊢
    exact this
  simp [MapList.get, h]

/-- Inserting keeps the key list unchanged when the key is present, and
appends the key otherwise. -/
theorem mapInsert_keys {κ α : Type} [DecidableEq κ] (k : κ) (a : α)
    (m : List (κ × α)) :
    (MapList.insert k a m).map Prod.fst =
      if m.any (fun p => decide (p.1 = k)) then m.map Prod.fst
      else m.map Prod.fst ++ [k] := by
  by_cases h : m.any (fun p => decide (p.1 = k))
  · rw [MapList.insert, if_pos h, if_pos h, List.map_map]
    apply List.map_congr_left
    intro p _
    by_cases hp : p.1 = k
    · simp [hp]
    · simp [hp]
  · rw [MapList.insert, if_neg h, if_neg h]
    simp

/-- Erasing preserves distinctness of the key list. -/
theorem mapErase_keys_nodup {κ α : Type} [DecidableEq κ] (k : κ)
    (m : List (κ × α)) (h : (m.map Prod.fst).Nodup) :
    ((MapList.erase k m).map Prod.fst).Nodup := by
  exact List.Nodup.sublist (List.Sublist.map Prod.fst (List.filter_sublist m)) h

/-- Inserting preserves distinctness of the key list. -/
theorem mapInsert_keys_nodup {κ α : Type} [DecidableEq κ] (k : κ) (a : α)
    (m : List (κ × α)) (h : (m.map Prod.fst).Nodup) :
    ((MapList.insert k a m).map Prod.fst).Nodup := by
  rw [mapInsert_keys]
  by_cases hc : m.any (fun p => decide (p.1 = k))
  · rwa [if_pos hc]
  · rw [if_neg hc]
    have hk : k ∉ m.map Prod.fst := by
      intro hmem
      obtain ⟨p, hp, hfst⟩ := List.mem_map.mp hmem
      rw [List.any_eq_true] at hc
      exact hc ⟨p, hp, by simp [hfst]⟩
    simp [List.nodup_append, h, hk]

/-- Entries of a map with distinct keys are determined by their key. -/
theorem keys_nodup_entry_unique {α : Type} {l : List (Nat × α)}
    (h : (l.map Prod.fst).Nodup) {k : Nat} {x y : α}
    (hx : (k, x) ∈ l) (hy : (k, y) ∈ l) : x = y := by
  have := List.inj_on_of_nodup_map h hx hy rfl
  exact congrArg Prod.snd this


/-! Claim theorems. -/

/-- C1: code behavior at the claimed scenario.  With auto_reconnect on,
max_reconnect_attempts = 2 and reconnect_interval = 0: (1) when every
pipeline attempt fails on push, `StreamingClient::start` performs ZERO
reconnect waits and returns Ok — the pushing task only logs its error and
`run_streaming_loop` returns `Ok(())`, so the retry policy never sees the
failure (contradicting the claimed 2 waits and fatal return); (2) the
retry policy itself does produce exactly 2 waits and then the error, but
only for attempts whose error reaches `start`, such as a pusher
construction failure. -/
theorem claim_C1_code_behavior :
    (clientStart
        { auto_reconnect := true, reconnect_interval := 0, max_reconnect_attempts := 2 }
        alwaysFailingPushBehavior = (Except.ok (), 0))
  ∧ (clientStart
        { auto_reconnect := true, reconnect_interval := 0, max_reconnect_attempts := 2 }
        failingPusherNewBehavior =
      (Except.error
        (StreamError.internal "Failed to create pusher: Custom protocol not implemented yet"), 2)) := by
  exact ⟨rfl, rfl⟩

/-- C2 counterexample: after a metadata packet, an audio packet and a
keyframe video packet, the init sequence is NOT
[metadata, audio-config, keyframe]: the audio-config slot is never
populated by add_packet. -/
theorem claim_C2_counterexample :
    ¬ ((((MediaBuffer.new.add_packet (MediaPacket.metadata [1])).add_packet
          (MediaPacket.audio [2] 0)).add_packet
          (MediaPacket.video [3] 1 true)).get_init_packets =
        [MediaPacket.metadata [1], MediaPacket.audio [2] 0,
         MediaPacket.video [3] 1 true]) := by
  decide

/-- C2 amended: for every stream whose media cache received a metadata
packet, an audio packet and then a keyframe video packet in that order,
the init sequence returned to a subsequently joining viewer is exactly
[metadata, keyframe] in that order with no duplicates: add_packet never
populates the audio-config slot (its Audio arm is empty), so the cached
audio-config never appears. -/
theorem claim_C2_amended (md ad kd : List Nat) (ats kts : Nat) :
    (((MediaBuffer.new.add_packet (MediaPacket.metadata md)).add_packet
        (MediaPacket.audio ad ats)).add_packet
        (MediaPacket.video kd kts true)).get_init_packets =
      [MediaPacket.metadata md, MediaPacket.video kd kts true] := rfl

/-- C3: LiveStream::new drops the receiving half of the media channel, so
send_media_packet on a freshly created stream always fails with
Internal("Failed to send media packet") and leaves the stream unchanged —
no packet is ever delivered through that channel. -/
theorem claim_C3_send_always_fails (stream_key : String) (info : StreamInfo)
    (packet : MediaPacket) :
    (LiveStream.new stream_key info).media_channel.receiver_alive = false
  ∧ (LiveStream.new stream_key info).send_media_packet packet =
      (Except.error (StreamError.internal "Failed to send media packet"),
       LiveStream.new stream_key info) := by
  exact ⟨rfl, rfl⟩

/-- C4: the rendered playlist for the target-duration-6, two-segment
(segment_3.ts / segment_4.ts, sequences 3 and 4, duration 6) playlist is
exactly the claimed text, and in general generate_m3u8 renders exactly the
spec's bit-exact format (headers, media-sequence of the first segment only
when a segment exists, then an EXTINF line and a name line per segment). -/
theorem claim_C4_m3u8 :
    (HlsPlaylist.generate_m3u8
      { stream_key := "test"
        segments := [{ name := "segment_3.ts", duration := 6, sequence := 3 },
                     { name := "segment_4.ts", duration := 6, sequence := 4 }]
        next_segment_number := 5
        target_duration := 6
        max_segments := 10
        last_segment_time := none } =
      "#EXTM3U\n#EXT-X-VERSION:3\n#EXT-X-TARGETDURATION:6\n#EXT-X-MEDIA-SEQUENCE:3\n#EXTINF:6.0,\nsegment_3.ts\n#EXTINF:6.0,\nsegment_4.ts\n")
  ∧ (∀ p : HlsPlaylist, p.generate_m3u8 = m3u8SpecText p.target_duration p.segments) := by
  constructor
  · rfl
  · intro p
    cases hsegs : p.segments with
    | nil =>
      simp [HlsPlaylist.generate_m3u8, m3u8SpecText, hsegs, String.join]
    | cons s rest =>
      simp only [HlsPlaylist.generate_m3u8, m3u8SpecText, hsegs, extinfFoldr_eq_join,
        List.head?_cons]

/-- C6: with auth disabled every key validates true (including keys never
added); with auth enabled validation is exactly allow-list membership, as
exercised by the allow-list {"abc"}: "abc" true, "abd" false, and after
remove_stream_key "abc" the key "abc" validates false. -/
theorem claim_C6_validate :
    (∀ (cfg : AuthConfig) (key : String), cfg.enabled = false →
        (AuthManager.new cfg).validate_stream_key key = true)
  ∧ (∀ (m : AuthManager) (key : String), m.config.enabled = true →
        (m.validate_stream_key key = true ↔ key ∈ m.valid_stream_keys))
  ∧ (AuthManager.new { enabled := true, valid_stream_keys := ["abc"] }).validate_stream_key "abc" = true
  ∧ (AuthManager.new { enabled := true, valid_stream_keys := ["abc"] }).validate_stream_key "abd" = false
  ∧ ((AuthManager.new { enabled := true, valid_stream_keys := ["abc"] }).remove_stream_key
        "abc").validate_stream_key "abc" = false := by
  refine ⟨?_, ?_, by decide, by decide, by decide⟩
  · intro cfg key h
    simp [AuthManager.validate_stream_key, AuthManager.new, h]
  · intro m key h
    simp [AuthManager.validate_stream_key, h]

/-- C6 witness: the disabled branch at the empty string and a key never
added, and the enabled branch at a concrete manager. -/
theorem claim_C6_validate_witness :
    ((AuthManager.new { enabled := false, valid_stream_keys := [] }).validate_stream_key "" = true)
  ∧ ((AuthManager.new { enabled := false, valid_stream_keys := [] }).validate_stream_key "never-added" = true)
  ∧ ((AuthManager.new { enabled := true, valid_stream_keys := ["abc"] }).validate_stream_key "abc" = true
        ↔ "abc" ∈ (AuthManager.new { enabled := true, valid_stream_keys := ["abc"] }).valid_stream_keys) :=
  ⟨claim_C6_validate.1 { enabled := false, valid_stream_keys := [] } "" rfl,
   claim_C6_validate.1 { enabled := false, valid_stream_keys := [] } "never-added" rfl,
   claim_C6_validate.2.1 (AuthManager.new { enabled := true, valid_stream_keys := ["abc"] }) "abc" rfl⟩

/-- C7: pushing on a disconnected pusher (either variant) returns
Network("Not connected to server") and leaves the pusher state exactly as
it was. -/
theorem claim_C7_push_disconnected (e : StreamPusherEnum) (packet : MediaPacket)
    (h : e.connected = false) :
    e.push_packet packet =
      (Except.error (StreamError.network "Not connected to server"), e) := by
  cases e with
  | rtmp p =>
    simp only [StreamPusherEnum.connected] at h
    simp [StreamPusherEnum.push_packet, RtmpPusher.push_packet, h]
  | srt p =>
    simp only [StreamPusherEnum.connected] at h
    simp [StreamPusherEnum.push_packet, SrtPusher.push_packet, h]

/-- C7 witness: a concrete disconnected RTMP pusher and a concrete packet. -/
theorem claim_C7_push_disconnected_witness :
    (StreamPusherEnum.rtmp
      { server_url := "rtmp://localhost:1935", stream_key := "k", app_name := "live"
        network_config := { connection_timeout := 10, read_timeout := 30,
                            write_timeout := 30, buffer_size := 65536 }
        connected := false }).push_packet (MediaPacket.metadata []) =
      (Except.error (StreamError.network "Not connected to server"),
       StreamPusherEnum.rtmp
        { server_url := "rtmp://localhost:1935", stream_key := "k", app_name := "live"
          network_config := { connection_timeout := 10, read_timeout := 30,
                              write_timeout := 30, buffer_size := 65536 }
          connected := false }) :=
  claim_C7_push_disconnected _ _ rfl

/-- C10: a connection whose last activity is 6 minutes (360 seconds) in
the past is removed by the next reaper sweep; one whose last activity is
4 minutes (240 seconds) in the past is retained by that sweep (the map
keys are unique ids, as in the source HashMap). -/
theorem claim_C10_reaper_sweep :
    (∀ (now : Int) (conns : List (Nat × WebRtcPeerConnection))
        (id : Nat) (c : WebRtcPeerConnection),
        (id, c) ∈ conns → now - c.last_activity = 360 →
        (id, c) ∉ cleanup_connections_sweep now conns)
  ∧ (∀ (now : Int) (conns : List (Nat × WebRtcPeerConnection))
        (id : Nat) (c : WebRtcPeerConnection),
        (conns.map Prod.fst).Nodup →
        (id, c) ∈ conns → now - c.last_activity = 240 →
        (id, c) ∈ cleanup_connections_sweep now conns) := by
  constructor
  · intro now conns id c hmem hago hresult
    have hexp : c.is_expired now = true := by
      simp only [WebRtcPeerConnection.is_expired, hago]
      decide
    have hinrem : id ∈ (conns.filter (fun p => p.2.is_expired now)).map Prod.fst :=
      List.mem_map.mpr ⟨(id, c), List.mem_filter.mpr ⟨hmem, hexp⟩, rfl⟩
    have := (List.mem_filter.mp hresult).2
    simp only [Bool.not_eq_true', decide_eq_false_iff_not] at this
    exact this hinrem
  · intro now conns id c hnodup hmem hago
    have hexp : c.is_expired now = false := by
      simp only [WebRtcPeerConnection.is_expired, hago]
      decide
    apply List.mem_filter.mpr
    refine ⟨hmem, ?_⟩
    simp only [Bool.not_eq_true', decide_eq_false_iff_not]
    intro hinrem
    obtain ⟨p, hpfilter, hpfst⟩ := List.mem_map.mp hinrem
    have hpconns := (List.mem_filter.mp hpfilter).1
    have hpexp := (List.mem_filter.mp hpfilter).2
    have hp : p = (id, p.2) := by
      rw [← hpfst]
    have : p.2 = c := by
      apply keys_nodup_entry_unique hnodup _ hmem
      rw [← hp]; exact hpconns
    rw [this] at hpexp
    rw [hexp] at hpexp
    exact Bool.false_ne_true hpexp

/-- C10 witness: a concrete sweep at time 360 over two connections, one
last active at 0 (6 minutes ago, removed) and one at 120 (4 minutes ago,
retained). -/
theorem claim_C10_reaper_sweep_witness :
    ((1, { id := 1, stream_key := "a", created_at := 0, last_activity := 0 })
        ∉ cleanup_connections_sweep 360
            [(1, { id := 1, stream_key := "a", created_at := 0, last_activity := 0 }),
             (2, { id := 2, stream_key := "b", created_at := 0, last_activity := 120 })])
  ∧ ((2, { id := 2, stream_key := "b", created_at := 0, last_activity := 120 })
        ∈ cleanup_connections_sweep 360
            [(1, { id := 1, stream_key := "a", created_at := 0, last_activity := 0 }),
             (2, { id := 2, stream_key := "b", created_at := 0, last_activity := 120 })]) :=
  ⟨claim_C10_reaper_sweep.1 360 _ 1 _ (by decide) (by decide),
   claim_C10_reaper_sweep.2 360 _ 2 _ (by decide) (by decide) (by decide)⟩

/-- One add_segment step, under the window invariant: the stored sequence
numbers stay the contiguous run ending just before the (incremented)
counter, and the window length stays within the bound. -/
theorem add_segment_step (p : HlsPlaylist) (nm : String) (d : Nat) (t : Int)
    (h1 : p.segments.map HlsSegment.sequence =
      List.range' (p.next_segment_number - p.segments.length) p.segments.length)
    (h2 : p.segments.length ≤ p.next_segment_number) :
    ((p.add_segment nm d t).segments.map HlsSegment.sequence =
      List.range'
        ((p.add_segment nm d t).next_segment_number - (p.add_segment nm d t).segments.length)
        (p.add_segment nm d t).segments.length)
  ∧ (p.add_segment nm d t).segments.length ≤ (p.add_segment nm d t).next_segment_number
  ∧ (p.add_segment nm d t).segments.length ≤ p.max_segments
  ∧ (p.add_segment nm d t).next_segment_number = p.next_segment_number + 1
  ∧ (p.add_segment nm d t).max_segments = p.max_segments := by
  have hnext : (p.add_segment nm d t).next_segment_number = p.next_segment_number + 1 := rfl
  have hsegs : (p.add_segment nm d t).segments =
      (p.segments ++
        [({ name := nm, duration := d, sequence := p.next_segment_number } : HlsSegment)]).drop
        ((p.segments.length + 1) - p.max_segments) := by
    simp [HlsPlaylist.add_segment, trimFront_eq_drop]
  have happ : (p.segments ++
      [({ name := nm, duration := d, sequence := p.next_segment_number } : HlsSegment)]).map
        HlsSegment.sequence =
      List.range' (p.next_segment_number - p.segments.length) (p.segments.length + 1) := by
    rw [List.map_append, h1, List.range'_1_concat]
    simp [Nat.sub_add_cancel h2]
  have hlen : (p.add_segment nm d t).segments.length =
      (p.segments.length + 1) - ((p.segments.length + 1) - p.max_segments) := by
    rw [hsegs]
    simp
  refine ⟨?_, ?_, ?_, rfl, rfl⟩
  · rw [hsegs, List.map_drop, happ, range'_drop, hnext]
    simp only [List.length_drop, List.length_append, List.length_cons, List.length_nil]
    congr 1
    omega
  · rw [hlen, hnext]
    omega
  · rw [hlen]
    omega

/-- The window invariant is preserved along any sequence of add_segment
calls, and the counter advances by the number of calls. -/
theorem applyAdds_spec : ∀ (ops : List SegmentAdd) (p : HlsPlaylist),
    p.segments.map HlsSegment.sequence =
      List.range' (p.next_segment_number - p.segments.length) p.segments.length →
    p.segments.length ≤ p.next_segment_number →
    p.segments.length ≤ p.max_segments →
    ((p.applyAdds ops).segments.map HlsSegment.sequence =
      List.range'
        ((p.applyAdds ops).next_segment_number - (p.applyAdds ops).segments.length)
        (p.applyAdds ops).segments.length)
  ∧ (p.applyAdds ops).segments.length ≤ (p.applyAdds ops).next_segment_number
  ∧ (p.applyAdds ops).segments.length ≤ (p.applyAdds ops).max_segments
  ∧ (p.applyAdds ops).next_segment_number = p.next_segment_number + ops.length
  ∧ (p.applyAdds ops).max_segments = p.max_segments := by
  intro ops
  induction ops with
  | nil =>
    intro p h1 h2 h3
    exact ⟨h1, h2, h3, rfl, rfl⟩
  | cons op ops ih =>
    intro p h1 h2 h3
    have hstep := add_segment_step p op.segment_name op.duration op.now h1 h2
    have hq := ih (p.add_segment op.segment_name op.duration op.now)
      hstep.1 hstep.2.1 hstep.2.2.1
    have happly : p.applyAdds (op :: ops) =
        (p.add_segment op.segment_name op.duration op.now).applyAdds ops := rfl
    rw [happly]
    refine ⟨hq.1, hq.2.1, ?_, ?_, ?_⟩
    · rw [hq.2.2.2.2, hstep.2.2.2.2]
      exact hq.2.2.1.trans (le_of_eq (by rw [hq.2.2.2.2, hstep.2.2.2.2]))
    · rw [hq.2.2.2.1, hstep.2.2.2.1]
      simp [List.length_cons]
      omega
    · rw [hq.2.2.2.2, hstep.2.2.2.2]

/-- C5: for every sequence of add_segment calls starting from a new
playlist, the playlist never exceeds the configured window, the counter
equals the number of calls (each number assigned once, strictly
increasing, never reused), and the kept segments carry exactly the newest
`length` sequence numbers, contiguous up to the counter — so eviction
always discards the oldest (smallest) sequence numbers first. -/
theorem claim_C5_window_invariant (stream_key : String) (config : StorageConfig)
    (ops : List SegmentAdd) :
    (((HlsPlaylist.new stream_key config).applyAdds ops).segments.length
        ≤ config.hls_playlist_length)
  ∧ (((HlsPlaylist.new stream_key config).applyAdds ops).next_segment_number = ops.length)
  ∧ (((HlsPlaylist.new stream_key config).applyAdds ops).segments.map HlsSegment.sequence =
      List.range'
        (ops.length - ((HlsPlaylist.new stream_key config).applyAdds ops).segments.length)
        ((HlsPlaylist.new stream_key config).applyAdds ops).segments.length) := by
  have h := applyAdds_spec ops (HlsPlaylist.new stream_key config)
    (by simp [HlsPlaylist.new]) (by simp [HlsPlaylist.new]) (by simp [HlsPlaylist.new])
  have hnext : ((HlsPlaylist.new stream_key config).applyAdds ops).next_segment_number =
      ops.length := by
    rw [h.2.2.2.1]
    simp [HlsPlaylist.new]
  have hmax : ((HlsPlaylist.new stream_key config).applyAdds ops).max_segments =
      config.hls_playlist_length := by
    rw [h.2.2.2.2]
    rfl
  refine ⟨?_, hnext, ?_⟩
  · rw [← hmax]
    exact h.2.2.1
  · rw [← hnext]
    exact h.1

/-- Viewer add/remove preserves distinct viewer keys and keeps the cached
count equal to the viewer-map size. -/
theorem applyViewerOps_inv : ∀ (ops : List ViewerOp) (s : LiveStream),
    (s.viewers.map Prod.fst).Nodup →
    s.info.viewer_count = s.viewers.length →
    ((s.applyViewerOps ops).viewers.map Prod.fst).Nodup
  ∧ (s.applyViewerOps ops).info.viewer_count = (s.applyViewerOps ops).viewers.length := by
  intro ops
  induction ops with
  | nil =>
    intro s h1 h2
    exact ⟨h1, h2⟩
  | cons op ops ih =>
    intro s h1 h2
    have hstep : s.applyViewerOps (op :: ops) =
        (s.applyViewerOp op).applyViewerOps ops := rfl
    rw [hstep]
    apply ih
    · cases op with
      | add v =>
        exact mapInsert_keys_nodup v.id v s.viewers h1
      | remove id =>
        exact mapErase_keys_nodup id s.viewers h1
    · cases op with
      | add v => rfl
      | remove id => rfl

/-- C9: starting from a fresh stream (created with a zero viewer count, as
the ingest handler does), after any sequence of viewer-add and
viewer-remove operations the cached `viewer_count` equals the number of
currently-present distinct viewer ids — at every observation point, since
the property holds after every prefix of the sequence. -/
theorem claim_C9_viewer_count (stream_key : String) (info : StreamInfo)
    (ops : List ViewerOp) (h : info.viewer_count = 0) :
    ((LiveStream.new stream_key info).applyViewerOps ops).info.viewer_count =
      ((((LiveStream.new stream_key info).applyViewerOps ops).viewers.map
          Prod.fst).dedup).length := by
  have hinv := applyViewerOps_inv ops (LiveStream.new stream_key info)
    (by simp [LiveStream.new]) (by simp [LiveStream.new, h])
  rw [hinv.2, List.dedup_eq_self.mpr hinv.1, List.length_map]

/-- C9 witness: the ingest handler's StreamInfo has viewer count 0, and a
concrete add/add/remove sequence keeps the cached count equal to the
number of distinct present viewer ids. -/
theorem claim_C9_viewer_count_witness :
    (publishStreamInfo "k").viewer_count = 0
  ∧ (((LiveStream.new "k" (publishStreamInfo "k")).applyViewerOps
        [ViewerOp.add { id := 1, remote_addr := "a", connected_at := 0,
                        protocol := ViewProtocol.webRtc, stream_key := "k" },
         ViewerOp.add { id := 2, remote_addr := "b", connected_at := 0,
                        protocol := ViewProtocol.hls, stream_key := "k" },
         ViewerOp.remove 1]).info.viewer_count =
      (((((LiveStream.new "k" (publishStreamInfo "k")).applyViewerOps
        [ViewerOp.add { id := 1, remote_addr := "a", connected_at := 0,
                        protocol := ViewProtocol.webRtc, stream_key := "k" },
         ViewerOp.add { id := 2, remote_addr := "b", connected_at := 0,
                        protocol := ViewProtocol.hls, stream_key := "k" },
         ViewerOp.remove 1]).viewers.map Prod.fst).dedup).length)) :=
  ⟨rfl, claim_C9_viewer_count "k" (publishStreamInfo "k") _ rfl⟩

/-- A removed key is absent from the registry. -/
theorem get_stream_remove (m : StreamManager) (k : String) :
    (m.remove_stream k).get_stream k = none :=
  mapGet_erase_self k m.streams

/-- The post-loop cleanup removes the published key from the registry. -/
theorem processCleanup_removes (reg : StreamManager) (key : String) :
    (processCleanup (some key) reg).get_stream key = none := by
  cases h : reg.get_stream key with
  | none => simp [processCleanup, h, get_stream_remove]
  | some s => simp [processCleanup, h, get_stream_remove]

/-- Whenever the message loop terminates through a break path (Disconnect
or read failure, the only ways it returns Ok), the published key has been
cleaned out of the registry. -/
theorem processGo_ok_removes (auth : AuthManager) :
    ∀ (reads : List (Except StreamError RtmpMessage)) (sk : Option String)
      (ls : Option LiveStream) (reg : StreamManager) (key : String),
    (processMessagesGo auth reads sk ls reg).result = Except.ok () →
    (processMessagesGo auth reads sk ls reg).stream_key = some key →
    ((processMessagesGo auth reads sk ls reg).registry).get_stream key = none := by
  intro reads
  induction reads with
  | nil =>
    intro sk ls reg key _ hkey
    simp only [processMessagesGo] at hkey ⊢
    rw [hkey]
    exact processCleanup_removes reg key
  | cons r rest ih =>
    intro sk ls reg key hres hkey
    cases r with
    | error e =>
      simp only [processMessagesGo] at hkey ⊢
      rw [hkey]
      exact processCleanup_removes reg key
    | ok msg =>
      cases msg with
      | connect app_name =>
        simp only [processMessagesGo] at hres hkey ⊢
        exact ih sk ls reg key hres hkey
      | publish k =>
        by_cases hv : auth.validate_stream_key k
        · simp only [processMessagesGo, hv, Bool.not_true, Bool.false_eq_true,
            if_neg, reduceIte] at hres hkey ⊢
          exact ih _ _ _ key hres hkey
        · simp only [processMessagesGo, Bool.not_eq_true] at hres
          rw [Bool.not_eq_true] at hv
          simp [hv] at hres
      | videoData data timestamp =>
        cases ls with
        | none =>
          simp only [processMessagesGo] at hres hkey ⊢
          exact ih sk none reg key hres hkey
        | some stream =>
          by_cases halive : stream.media_channel.receiver_alive
          · simp only [processMessagesGo, LiveStream.send_media_packet, halive,
              if_pos, reduceIte] at hres hkey ⊢
            exact ih _ _ _ key hres hkey
          · rw [Bool.not_eq_true] at halive
            simp only [processMessagesGo, LiveStream.send_media_packet, halive,
              Bool.false_eq_true, if_neg, reduceIte] at hres
            simp at hres
      | audioData data timestamp =>
        cases ls with
        | none =>
          simp only [processMessagesGo] at hres hkey ⊢
          exact ih sk none reg key hres hkey
        | some stream =>
          by_cases halive : stream.media_channel.receiver_alive
          · simp only [processMessagesGo, LiveStream.send_media_packet, halive,
              if_pos, reduceIte] at hres hkey ⊢
            exact ih _ _ _ key hres hkey
          · rw [Bool.not_eq_true] at halive
            simp only [processMessagesGo, LiveStream.send_media_packet, halive,
              Bool.false_eq_true, if_neg, reduceIte] at hres
            simp at hres
      | disconnect =>
        simp only [processMessagesGo] at hkey ⊢
        rw [hkey]
        exact processCleanup_removes reg key

/-- C8 counterexample: with auth disabled, the reads
[Publish "test_stream", VideoData ...] terminate the connection with the
media-forward error (the media channel receiver is dropped at stream
creation), and the registry STILL holds the entry for "test_stream" with
status Live — the handler neither set it to Stopped nor removed it. -/
theorem claim_C8_counterexample :
    ((process_messages (AuthManager.new { enabled := false, valid_stream_keys := [] })
        [Except.ok (RtmpMessage.publish "test_stream"),
         Except.ok (RtmpMessage.videoData [0] 0)]
        { streams := [] }).result =
      Except.error (StreamError.internal "Failed to send media packet"))
  ∧ (((process_messages (AuthManager.new { enabled := false, valid_stream_keys := [] })
        [Except.ok (RtmpMessage.publish "test_stream"),
         Except.ok (RtmpMessage.videoData [0] 0)]
        { streams := [] }).registry.get_stream "test_stream").map LiveStream.status =
      some StreamStatus.live) := by
  constructor
  · rfl
  · rfl

/-- C8 amended: cleanup happens exactly on the loop's break exits.  On
every run of process_messages that returns Ok — i.e. terminates through an
explicit Disconnect or a read (I/O) failure — the published stream key, if
any, has been set to Stopped and removed, so the final registry holds no
entry for it.  Runs that terminate by propagating a message-handling error
(auth failure on a later publish, or a media-forward failure) skip the
cleanup, as the counterexample shows. -/
theorem claim_C8_amended (auth : AuthManager)
    (reads : List (Except StreamError RtmpMessage)) (reg : StreamManager)
    (key : String)
    (hres : (process_messages auth reads reg).result = Except.ok ())
    (hkey : (process_messages auth reads reg).stream_key = some key) :
    (process_messages auth reads reg).registry.get_stream key = none :=
  processGo_ok_removes auth reads none none reg key hres hkey

/-- C8 witness: a publish followed by an explicit disconnect ends with the
key absent from the registry. -/
theorem claim_C8_amended_witness :
    ((process_messages (AuthManager.new { enabled := false, valid_stream_keys := [] })
        [Except.ok (RtmpMessage.publish "k"), Except.ok RtmpMessage.disconnect]
        { streams := [] }).result = Except.ok ())
  ∧ ((process_messages (AuthManager.new { enabled := false, valid_stream_keys := [] })
        [Except.ok (RtmpMessage.publish "k"), Except.ok RtmpMessage.disconnect]
        { streams := [] }).stream_key = some "k")
  ∧ ((process_messages (AuthManager.new { enabled := false, valid_stream_keys := [] })
        [Except.ok (RtmpMessage.publish "k"), Except.ok RtmpMessage.disconnect]
        { streams := [] }).registry.get_stream "k" = none) :=
  ⟨rfl, rfl,
   claim_C8_amended (AuthManager.new { enabled := false, valid_stream_keys := [] })
     [Except.ok (RtmpMessage.publish "k"), Except.ok RtmpMessage.disconnect]
     { streams := [] } "k" rfl rfl⟩
